import Mathlib

/-!
Verification of the run-tracing client in the LangSmith REST-API notebook
(src/langsmith.ipynb).  The notebook's logic is embedded shallowly:

* JSON payloads become `JVal` trees; a HTTP request becomes a `Request`
  record holding the method, the URL (as a list of path segments rooted at
  the endpoint constant) and the JSON body as an ordered field list.
* `RunLogger.post_run` and `RunLogger.patch_run` build their request from
  their arguments and submit it; they keep no state and ignore the
  response, so each is embedded as a pure request constructor
  (`postRunRequest`, `patchRunRequest`) plus two execution models:
  - a trace model (`runLogger`, `fibonacciR`) where the transport returns a
    status code that the client discards, recording the emitted requests;
  - an exception model (`post_runE`, `patch_runE`, `fibonacciE`) over
    `Except`, where the transport may raise (as Python's `requests` calls
    do on network failure) and an uncaught error propagates to the caller.
* the notebook's standalone demo cells that buffer events in a list and
  flush them in a PATCH become `appendEvent` / `demoPatchRequest`;
* `fibonacci` (cell 18) becomes `fibonacciR` / `fibonacciE`, with its pure
  value recursion isolated as `fibPure`.
-/

/-- JSON values, as produced by Python's `json=` serialization (`None`
becomes `null`; dict insertion order is kept). -/
inductive JVal where
  | null : JVal
  | str : String → JVal
  | num : Int → JVal
  | obj : List (String × JVal) → JVal
  | arr : List JVal → JVal

/-- An HTTP request: method, URL path segments (first segment is the
endpoint constant), and the JSON body as an ordered association list. -/
structure Request where
  method : String
  url : List String
  json : List (String × JVal)

/-- Endpoint constant from the notebook's configuration cell. -/
def LANGCHAIN_ENDPOINT : String := "https://api.smith.langchain.com"

/-- Project name from the notebook's configuration cell. -/
def project_name : String := "default"

/-- Python `Optional[str]` serialized into JSON: `None` becomes `null`. -/
def optStr : Option String → JVal
  | none => JVal.null
  | some s => JVal.str s

/-- Python `Optional[dict]` serialized into JSON: `None` becomes `null`. -/
def optObj : Option (List (String × JVal)) → JVal
  | none => JVal.null
  | some fields => JVal.obj fields

/-- Ordered lookup of a field in a JSON object body. -/
def lookupField : List (String × JVal) → String → Option JVal
  | [], _ => none
  | (k, v) :: rest, key => if k = key then some v else lookupField rest key

/-- The request built by `RunLogger.post_run` (notebook cell 16): a POST to
`LANGCHAIN_ENDPOINT/runs` whose body lists, in source order, id, name,
run_type (always the literal "chain"), parent_run_id (null when the caller
passes none), inputs, start_time and session_name.  `now` stands for
`datetime.datetime.utcnow().isoformat()`. -/
def postRunRequest (data : List (String × JVal)) (name : String)
    (run_id : String) (parent_run_id : Option String) (now : String) :
    Request :=
  { method := "POST"
    url := [LANGCHAIN_ENDPOINT, "runs"]
    json := [("id", JVal.str run_id),
             ("name", JVal.str name),
             ("run_type", JVal.str "chain"),
             ("parent_run_id", optStr parent_run_id),
             ("inputs", JVal.obj data),
             ("start_time", JVal.str now),
             ("session_name", JVal.str project_name)] }

/-- The request built by `RunLogger.patch_run` (notebook cell 16): a PATCH
to `LANGCHAIN_ENDPOINT/runs/run_id` whose body lists, in source order,
error, outputs and end_time; error and outputs are always present, null
when the caller omits them, and no events field is ever sent. -/
def patchRunRequest (run_id : String)
    (output : Option (List (String × JVal))) (error : Option String)
    (now : String) : Request :=
  { method := "PATCH"
    url := [LANGCHAIN_ENDPOINT, "runs", run_id]
    json := [("error", optStr error),
             ("outputs", optObj output),
             ("end_time", JVal.str now)] }

/-- One call against the `RunLogger` instance: either `post_run` (begin)
or `patch_run` (end). -/
inductive LogOp where
  | post (data : List (String × JVal)) (name : String) (run_id : String)
      (parent_run_id : Option String)
  | patch (run_id : String) (output : Option (List (String × JVal)))
      (error : Option String)

/-- The request a single `RunLogger` call submits. -/
def execOp (now : String) : LogOp → Request
  | LogOp.post data name run_id parent => postRunRequest data name run_id parent now
  | LogOp.patch run_id output error => patchRunRequest run_id output error now

/-- Executing a sequence of `RunLogger` calls: the class holds no per-run
state, so every call unconditionally submits exactly its own request. -/
def runLogger (now : String) (ops : List LogOp) : List Request :=
  ops.map (execOp now)

/-- Recognizes an update (PATCH) request addressed to a given run id. -/
def isUpdateOn (rid : String) (r : Request) : Bool :=
  decide (r.method = "PATCH" ∧ r.url = [LANGCHAIN_ENDPOINT, "runs", rid])

/-- Recognizes a `patch_run` call against a given run id. -/
def isEndOn (rid : String) : LogOp → Bool
  | LogOp.patch r _ _ => decide (r = rid)
  | _ => false

/-- Model of `RunLogger.post_run` over `Except`: the transport either
returns a status (which the method discards — it never inspects the
response) or raises, in which case the exception propagates, since
`post_run` has no handler. -/
def post_runE (tr : Request → Except String Nat)
    (data : List (String × JVal)) (name : String) (run_id : String)
    (parent_run_id : Option String) (now : String) : Except String Unit :=
  match tr (postRunRequest data name run_id parent_run_id now) with
  | Except.error e => Except.error e
  | Except.ok _ => Except.ok ()

/-- Model of `RunLogger.patch_run` over `Except`, same shape as
`post_runE`: the response is discarded and a raised exception propagates. -/
def patch_runE (tr : Request → Except String Nat) (run_id : String)
    (output : Option (List (String × JVal))) (error : Option String)
    (now : String) : Except String Unit :=
  match tr (patchRunRequest run_id output error now) with
  | Except.error e => Except.error e
  | Except.ok _ => Except.ok ()

/-- Append to the notebook's in-memory event buffer, as `events.append`
does (cell 7): adds at the end, preserving insertion order. -/
def appendEvent (events : List JVal) (e : JVal) : List JVal :=
  events ++ [e]

/-- First demo event from cell 7. -/
def retryEvent : JVal :=
  JVal.obj [("event_name", JVal.str "retry"),
            ("reason", JVal.str "never gonna give you up")]

/-- Second demo event from cell 7. -/
def newTokenEvent : JVal :=
  JVal.obj [("event_name", JVal.str "new_token"), ("value", JVal.str "foo")]

/-- The buffer built in cell 7: two appends onto the empty list. -/
def demoEvents : List JVal :=
  appendEvent (appendEvent [] retryEvent) newTokenEvent

/-- The standalone update request of cell 9: a PATCH carrying outputs,
end_time and the whole buffered event list, in buffer order. -/
def demoPatchRequest (run_id : String) (events : List JVal) (now : String) :
    Request :=
  { method := "PATCH"
    url := [LANGCHAIN_ENDPOINT, "runs", run_id]
    json := [("outputs", JVal.obj [("my_output", JVal.str "Bar")]),
             ("end_time", JVal.str now),
             ("events", JVal.arr events)] }

/-- The pure value recursion of `fibonacci` (cell 18), stripped of the
logging side effects: Python computes `n` when `n <= 1` (negative `n`
included) and the two-step recursion otherwise. -/
def fibPure (n : Int) : Int :=
  if _h : n ≤ 1 then n else fibPure (n - 1) + fibPure (n - 2)
termination_by n.toNat
decreasing_by
  all_goals omega

/-- Translation of `fibonacci(n, depth, parent_run_id)` (cell 18) in the trace model.
The transport returns a status code for every request; the code never
looks at it, so statuses are only recorded alongside the requests.  Run
ids come from the supply `idOf` indexed by a counter standing for the
successive `uuid.uuid4()` draws; `now` stands for the timestamp.  Returns
the Python return value, the next counter, and the emitted
request/status trace in submission order. -/
def fibonacciR (tr : Request → Nat) (idOf : Nat → String) (now : String)
    (n : Int) (depth : Int) (parent_run_id : Option String) (ctr : Nat) :
    Int × Nat × List (Request × Nat) :=
  let run_id := idOf ctr
  let req := postRunRequest [("n", JVal.num n)] "fibonacci_recursive" run_id
    parent_run_id now
  if _h : n ≤ 1 then
    let preq := patchRunRequest run_id (some [("result", JVal.num n)]) none now
    (n, ctr + 1, [(req, tr req), (preq, tr preq)])
  else
    let r1 := fibonacciR tr idOf now (n - 1) (depth + 1) (some run_id) (ctr + 1)
    let r2 := fibonacciR tr idOf now (n - 2) (depth + 1) (some run_id) r1.2.1
    let preq := patchRunRequest run_id
      (some [("result", JVal.num (r1.1 + r2.1))]) none now
    (r1.1 + r2.1, r2.2.1, (req, tr req) :: (r1.2.2 ++ r2.2.2 ++ [(preq, tr preq)]))
termination_by n.toNat
decreasing_by
  all_goals omega

/-- Translation of `fibonacci` (cell 18) in the exception model, where
a transport call may raise.  Its `post_run` is called
before the `try` block, so an exception it raises propagates directly; an
exception raised inside the `try` block (by a recursive call or by the
success-path `patch_run`) is caught, `patch_run(error=...)` is attempted,
and the exception is re-raised (or replaced, if that `patch_run` itself
raises).  Returns the value together with the next uuid counter. -/
def fibonacciE (tr : Request → Except String Nat) (idOf : Nat → String)
    (now : String) (n : Int) (depth : Int) (parent_run_id : Option String)
    (ctr : Nat) : Except String (Int × Nat) :=
  let run_id := idOf ctr
  match post_runE tr [("n", JVal.num n)] "fibonacci_recursive" run_id
      parent_run_id now with
  | Except.error e => Except.error e
  | Except.ok _ =>
    let body : Except String (Int × Nat) :=
      if _h : n ≤ 1 then
        Except.ok (n, ctr + 1)
      else
        match fibonacciE tr idOf now (n - 1) (depth + 1) (some run_id) (ctr + 1) with
        | Except.error e => Except.error e
        | Except.ok (a, c1) =>
          match fibonacciE tr idOf now (n - 2) (depth + 1) (some run_id) c1 with
          | Except.error e => Except.error e
          | Except.ok (b, c2) => Except.ok (a + b, c2)
    match body with
    | Except.ok (result, c) =>
      match patch_runE tr run_id (some [("result", JVal.num result)]) none now with
      | Except.ok _ => Except.ok (result, c)
      | Except.error e =>
        match patch_runE tr run_id none (some e) now with
        | Except.ok _ => Except.error e
        | Except.error e2 => Except.error e2
    | Except.error e =>
      match patch_runE tr run_id none (some e) now with
      | Except.ok _ => Except.error e
      | Except.error e2 => Except.error e2
termination_by n.toNat
decreasing_by
  all_goals omega

/-! ## Helper lemmas -/

/-- The result component of `fibonacciR` is the pure recursion `fibPure`,
whatever the transport statuses, the id supply, the timestamp, the depth,
the parent and the counter. -/
theorem fibonacciR_fst_aux (tr : Request → Nat) (idOf : Nat → String) (now : String) :
    ∀ (k : Nat) (n : Int), n.toNat ≤ k →
      ∀ (depth : Int) (parent : Option String) (ctr : Nat),
        (fibonacciR tr idOf now n depth parent ctr).1 = fibPure n := by
  intro k
  induction k with
  | zero =>
    intro n hn depth parent ctr
    have h : n ≤ 1 := by omega
    unfold fibonacciR fibPure
    simp [h]
  | succ k ih =>
    intro n hn depth parent ctr
    by_cases h : n ≤ 1
    · unfold fibonacciR fibPure
      simp [h]
    · unfold fibonacciR fibPure
      simp only [h, dite_false]
      rw [ih (n - 1) (by omega), ih (n - 2) (by omega)]

/-- On non-negative arguments `fibPure` is the Fibonacci sequence. -/
theorem fibPure_cast_fib : ∀ k : Nat, fibPure (k : Int) = (Nat.fib k : Int) := by
  intro k
  induction k using Nat.strong_induction_on with
  | _ k ih =>
    match k with
    | 0 => simp [fibPure]
    | 1 => simp [fibPure]
    | (m + 2) =>
      unfold fibPure
      rw [dif_neg (by push_cast; omega)]
      have h1 : ((m + 2 : Nat) : Int) - 1 = ((m + 1 : Nat) : Int) := by push_cast; ring
      have h2 : ((m + 2 : Nat) : Int) - 2 = ((m : Nat) : Int) := by push_cast; ring
      rw [h1, h2, ih (m + 1) (by omega), ih m (by omega), Nat.fib_add_two]
      push_cast
      ring

/-- Each `patch_run` call on a run id contributes exactly one update
request addressed to that id, over any call sequence: the logger keeps no
state that could suppress or merge requests. -/
theorem runLogger_countP_updates (now : String) (ops : List LogOp) (rid : String) :
    (runLogger now ops).countP (isUpdateOn rid) = ops.countP (isEndOn rid) := by
  unfold runLogger
  rw [List.countP_map]
  apply List.countP_congr
  intro op _
  cases op with
  | post data name r parent =>
    simp [execOp, postRunRequest, isUpdateOn, isEndOn]
  | patch r output error =>
    simp [execOp, patchRunRequest, isUpdateOn, isEndOn]

/-! ## Claim theorems -/

/-- C1 counterexample.  The claim says that after the terminal `end` on a
run id every further `end` call is observable only as a no-op issuing no
further transport request.  In the code a begin / end / end sequence on
run id R1 issues three requests, two of them updates addressed to R1: the
second `end`, after the terminal transition, still issues an update. -/
theorem end_not_inert_counterexample :
    (runLogger "t0" [LogOp.post [] "root" "R1" none,
        LogOp.patch "R1" (some [("ok", JVal.num 1)]) none,
        LogOp.patch "R1" (some [("ok", JVal.num 1)]) none]).countP (isUpdateOn "R1") = 2 ∧
    (runLogger "t0" [LogOp.post [] "root" "R1" none,
        LogOp.patch "R1" (some [("ok", JVal.num 1)]) none,
        LogOp.patch "R1" (some [("ok", JVal.num 1)]) none]).length = 3 := by
  constructor
  · decide
  · rfl

/-- C1 amended.  `RunLogger` keeps no per-run state at all — there is no
Open / Completed / Failed field and no terminal transition: over any call
sequence every call submits exactly one request, and every `patch_run`
call on a run id yields exactly one update request addressed to that id,
including calls made after an earlier end of the same run. -/
theorem patch_run_no_state_tracking (now : String) (ops : List LogOp) (rid : String) :
    (runLogger now ops).length = ops.length ∧
    (runLogger now ops).countP (isUpdateOn rid) = ops.countP (isEndOn rid) :=
  ⟨List.length_map _ _, runLogger_countP_updates now ops rid⟩

/-- C2 counterexample.  The claim says `end` with both outputs and error,
or with neither, raises a UsageError and issues no update request.  In the
code `patch_run` called with both (or neither) raises nothing — with a
returning transport it completes normally — and it does issue the update
request, carrying whatever was passed. -/
theorem end_invalid_args_counterexample :
    patch_runE (fun _ => Except.ok 200) "R1" (some [("a", JVal.num 1)]) (some "boom") "t0"
      = Except.ok () ∧
    patch_runE (fun _ => Except.ok 200) "R1" none none "t0" = Except.ok () ∧
    runLogger "t0" [LogOp.patch "R1" (some [("a", JVal.num 1)]) (some "boom")]
      = [patchRunRequest "R1" (some [("a", JVal.num 1)]) (some "boom") "t0"] :=
  ⟨rfl, rfl, rfl⟩

/-- C2 amended.  `patch_run` performs no argument validation: called with
any combination of outputs and error (both, neither, or exactly one) it
raises no error and issues exactly one update request whose error and
outputs fields carry the given values, null standing for an omitted
argument. -/
theorem patch_run_no_validation (rid : String) (out : Option (List (String × JVal)))
    (err : Option String) (now : String) (f : Request → Nat) :
    patch_runE (fun r => Except.ok (f r)) rid out err now = Except.ok () ∧
    runLogger now [LogOp.patch rid out err] = [patchRunRequest rid out err now] ∧
    lookupField (patchRunRequest rid out err now).json "error" = some (optStr err) ∧
    lookupField (patchRunRequest rid out err now).json "outputs" = some (optObj out) :=
  ⟨rfl, rfl, rfl, rfl⟩

/-- C3 counterexample.  The claim says a transport failure during the
create call does not raise out of `begin`.  `post_run` has no exception
handler, so a transport call that raises (as Python's `requests.post` does
on network failure) propagates into the caller. -/
theorem post_run_exception_propagates :
    post_runE (fun _ => Except.error "ConnectionError") [] "MyRun" "R1" none "t0"
      = Except.error "ConnectionError" ∧
    patch_runE (fun _ => Except.error "ConnectionError") "R1"
        (some [("a", JVal.num 1)]) none "t0"
      = Except.error "ConnectionError" :=
  ⟨rfl, rfl⟩

/-- C3 amended.  A transport failure reported through the response value
does not raise out of `post_run` — the response is ignored for every
status, success or failure — and a subsequent `patch_run` on the same run
id likewise completes without raising; but a transport call that raises an
exception propagates out of `post_run` (and out of `patch_run`) into the
caller's code. -/
theorem transport_status_isolated (f : Request → Nat) (e : String)
    (data : List (String × JVal)) (name rid : String) (parent : Option String)
    (now : String) (out : Option (List (String × JVal))) (err : Option String) :
    post_runE (fun r => Except.ok (f r)) data name rid parent now = Except.ok () ∧
    patch_runE (fun r => Except.ok (f r)) rid out err now = Except.ok () ∧
    post_runE (fun _ => Except.error e) data name rid parent now = Except.error e ∧
    patch_runE (fun _ => Except.error e) rid out err now = Except.error e :=
  ⟨rfl, rfl, rfl, rfl⟩

/-- C4 confirmed.  Whatever the surrounding call sequence, a `post_run`
call with parent argument `parent` emits a create request whose
parent_run_id field is exactly that argument — the run id passed when a
parent is given, and null (`optStr none`) when no parent is given. -/
theorem begin_parent_exact (now : String) (ops : List LogOp) (i : Nat)
    (hi : i < (runLogger now ops).length)
    (data : List (String × JVal)) (name rid : String) (parent : Option String)
    (h : ops.get ⟨i, by simpa [runLogger] using hi⟩ = LogOp.post data name rid parent) :
    lookupField ((runLogger now ops).get ⟨i, hi⟩).json "parent_run_id"
      = some (optStr parent) ∧ optStr none = JVal.null := by
  refine ⟨?_, rfl⟩
  unfold runLogger at hi ⊢
  simp only [List.get_eq_getElem] at h ⊢
  rw [List.getElem_map, h]
  simp [execOp, postRunRequest, lookupField]

/-- Witness for C4: in the root / child scenario the child's create
request carries parent_run_id R1. -/
theorem begin_parent_exact_witness :
    lookupField ((runLogger "t0" [LogOp.post [] "root" "R1" none,
        LogOp.post [] "child" "R2" (some "R1")]).get ⟨1, by simp [runLogger]⟩).json
      "parent_run_id" = some (optStr (some "R1")) ∧ optStr none = JVal.null :=
  begin_parent_exact "t0" _ 1 (by simp [runLogger]) [] "child" "R2" (some "R1") rfl

/-- C5 counterexample.  The claim says one added event followed by `end`
yields exactly one event inside the update payload.  With one event in the
buffer, `RunLogger.patch_run` — the client's `end` — issues an update
payload with no events field at all: the buffered event is never flushed
by it. -/
theorem patch_run_no_events_counterexample :
    (appendEvent [] retryEvent).length = 1 ∧
    lookupField (patchRunRequest "R1" (some []) none "t0").json "events" = none :=
  ⟨rfl, rfl⟩

/-- C5 amended.  Events appended to the notebook's in-memory buffer are
kept in the order added, and the standalone demo update request (cell 9)
flushes exactly the buffered sequence, in that order, in its events field;
`RunLogger.patch_run`, however, issues update payloads containing only
error, outputs and end_time and never any events field. -/
theorem events_buffer_flush :
    (∀ (rid : String) (evs : List JVal) (now : String),
      lookupField (demoPatchRequest rid evs now).json "events" = some (JVal.arr evs)) ∧
    (∀ e : JVal, appendEvent [] e = [e]) ∧
    demoEvents = [retryEvent, newTokenEvent] ∧
    (∀ (rid : String) (out : Option (List (String × JVal))) (err : Option String)
        (now : String),
      lookupField (patchRunRequest rid out err now).json "events" = none) :=
  ⟨fun _ _ _ => rfl, fun _ => rfl, rfl, fun _ _ _ _ => rfl⟩

/-- C6 counterexample.  The claim says calling `end` twice with the same
outputs results in exactly one transport update call.  In the code the two
calls issue two update requests addressed to the run id. -/
theorem end_twice_two_updates_counterexample :
    (runLogger "t0" [LogOp.patch "R" (some [("a", JVal.num 1)]) none,
        LogOp.patch "R" (some [("a", JVal.num 1)]) none]).countP (isUpdateOn "R") = 2 := by
  decide

/-- C6 amended.  `end` is not idempotent: each of two identical `end`
calls on the same run id issues its own update request — two requests in
total — though the second call does raise nothing (with a transport that
returns, `patch_run` always completes normally). -/
theorem end_second_call_also_updates (rid : String)
    (out : Option (List (String × JVal))) (now : String) (f : Request → Nat) :
    (runLogger now [LogOp.patch rid out none,
        LogOp.patch rid out none]).countP (isUpdateOn rid) = 2 ∧
    patch_runE (fun r => Except.ok (f r)) rid out none now = Except.ok () := by
  refine ⟨?_, rfl⟩
  rw [runLogger_countP_updates]
  simp [isEndOn]

/-- C7 counterexample.  The claim says every create request submits
exactly the fields id, name, run_type, parent_run_id?, inputs and
start_time, and every update request may carry events.  The code's create
request also carries session_name, a field outside the claimed set, and
its update request never carries events. -/
theorem create_fields_counterexample :
    "session_name" ∈ (postRunRequest [] "MyRun" "R1" none "t0").json.map Prod.fst ∧
    "session_name" ∉ ["id", "name", "run_type", "parent_run_id", "inputs", "start_time"] ∧
    lookupField (patchRunRequest "R1" (some []) none "t0").json "events" = none := by
  refine ⟨by decide, by decide, rfl⟩

/-- C7 amended.  Every create request submits exactly the fields id, name,
run_type, parent_run_id, inputs, start_time and session_name — with
parent_run_id always present, null when no parent is given — and every
update request submits exactly the fields error, outputs and end_time,
addressed by the run id in the URL; error and outputs are always present,
null when not provided, and events never appears. -/
theorem request_fields_exact :
    (∀ (data : List (String × JVal)) (name rid : String) (parent : Option String)
        (now : String),
      (postRunRequest data name rid parent now).json.map Prod.fst
        = ["id", "name", "run_type", "parent_run_id", "inputs", "start_time",
           "session_name"]) ∧
    (∀ (rid : String) (out : Option (List (String × JVal))) (err : Option String)
        (now : String),
      (patchRunRequest rid out err now).json.map Prod.fst
          = ["error", "outputs", "end_time"] ∧
        (patchRunRequest rid out err now).url = [LANGCHAIN_ENDPOINT, "runs", rid]) :=
  ⟨fun _ _ _ _ _ => rfl, fun _ _ _ _ => ⟨rfl, rfl⟩⟩

/-- C9 counterexample.  The claim says `fibonacci(n)` returns its value
independently of any tracing success or failure of the logger calls it
wraps.  With a transport that raises — `post_run` is called before the
`try` block — `fibonacci(0)` does not return 0: the exception propagates
to the caller. -/
theorem fibonacci_transport_exception_counterexample :
    fibonacciE (fun _ => Except.error "ConnectionError") (fun i => toString i) "t0"
        0 0 none 0
      = Except.error "ConnectionError" := by
  simp [fibonacciE, post_runE]

/-- C9 amended.  For every integer `n`, `fibonacci(n)` terminates and its
return value is the pure recursion `fibPure n` — equal to the n-th
Fibonacci number for n ≥ 0 and to n itself for n ≤ 1, negative n
included — independently of the transport's response outcomes, of the id
supply, of the timestamp, of the depth argument and of the parent; but a
logger call that raises an exception propagates it instead of returning. -/
theorem fibonacci_correct :
    (∀ (tr : Request → Nat) (idOf : Nat → String) (now : String) (n depth : Int)
        (parent : Option String) (ctr : Nat),
      (fibonacciR tr idOf now n depth parent ctr).1 = fibPure n) ∧
    (∀ n : Int, n ≤ 1 → fibPure n = n) ∧
    (∀ k : Nat, fibPure (k : Int) = (Nat.fib k : Int)) := by
  refine ⟨?_, ?_, fibPure_cast_fib⟩
  · intro tr idOf now n depth parent ctr
    exact fibonacciR_fst_aux tr idOf now n.toNat n (le_refl _) depth parent ctr
  · intro n h
    unfold fibPure
    simp [h]

/-- Witness for C9: concrete instances — the traced fibonacci of 5 under
an all-200 transport returns fibPure 5, fibPure of 0 is 0 (hypothesis
0 ≤ 1 discharged), and fibPure of 6 is the sixth Fibonacci number 8. -/
theorem fibonacci_correct_witness :
    (fibonacciR (fun _ => 200) (fun i => toString i) "t0" 5 0 none 0).1 = fibPure 5 ∧
    fibPure 0 = 0 ∧ fibPure ((6 : Nat) : Int) = 8 := by
  refine ⟨fibonacci_correct.1 _ _ _ _ _ _ _, fibonacci_correct.2.1 0 (by norm_num), ?_⟩
  rw [fibonacci_correct.2.2 6]
  decide

/-- C10 confirmed.  Every create request emitted by `RunLogger.post_run`
carries run_type equal to the fixed string "chain", whatever the inputs,
name, run id, parent and timestamp: the method exposes no parameter that
could classify a run as any other kind. -/
theorem post_run_run_type_chain (data : List (String × JVal)) (name rid : String)
    (parent : Option String) (now : String) :
    lookupField (postRunRequest data name rid parent now).json "run_type"
      = some (JVal.str "chain") := rfl
